import Mathlib

/-!
Shallow embedding of `claude_visualizer/visualizer.py` (with the data model of
`claude_visualizer/parser.py` and the color schemes of `claude_visualizer/themes.py`)
from the repository `ai-tools/claude-messages-visualizer`.

Python values coming from JSON are modelled by the inductive type `Json`
(numbers restricted to integers, which covers every value the claims touch).
The mutable `rich.tree.Tree` is modelled by the pure type `Node`; a rendering
function returns the list of nodes it added to its parent together with
`Option String`: `some e` means the Python code raised an exception `e` after
adding those nodes (Rich trees are mutated in place, so nodes added before the
raise remain in the tree), `none` means it returned normally.
-/

set_option maxRecDepth 10000

namespace ClaudeVisualizer

/-- A JSON-derived Python value (`dict`/`list`/`str`/`int`/`bool`/`None`). -/
inductive Json where
  | null : Json
  | bool : Bool → Json
  | num : Int → Json
  | str : String → Json
  | arr : List Json → Json
  | obj : List (String × Json) → Json

/-- The payload of a content block: a Python `dict` with string keys. -/
abbrev JObj := List (String × Json)

/-- Python `d.get(k)` on a dict: `none` models Python `None` for a missing key. -/
def jLookup (o : JObj) (k : String) : Option Json := o.lookup k

/-- Python `d.get(k, default)` on a dict. -/
def jGetD (o : JObj) (k : String) (d : Json) : Json := (jLookup o k).getD d

/-- Python truthiness (`if x:`) of a JSON-derived value. -/
def truthy : Json → Bool
  | .null => false
  | .bool b => b
  | .num n => n != 0
  | .str s => s != ""
  | .arr l => !l.isEmpty
  | .obj l => !l.isEmpty

/-- Python truthiness of the result of `d.get(k)` (which may be `None`). -/
def truthyOpt : Option Json → Bool
  | some j => truthy j
  | none => false

/-- Python `x == "lit"` for a JSON-derived `x` against a string literal. -/
def jIsStr (j : Json) (s : String) : Bool :=
  match j with
  | .str t => t == s
  | _ => false

/-- Python `x == 0` for a JSON-derived `x` (note `False == 0` is `True` in Python). -/
def pyEqZero : Json → Bool
  | .num n => n == 0
  | .bool b => !b
  | _ => false

/-- An ASCII apostrophe, written via its code point. -/
def sq : String := String.singleton (Char.ofNat 39)

mutual

/-- Python `repr` of a JSON-derived value (used inside `str` of lists/dicts).
String escaping inside `repr` is simplified to plain quoting; no claim depends
on the exact `repr` of nested containers. -/
def pyRepr : Json → String
  | .null => "None"
  | .bool true => "True"
  | .bool false => "False"
  | .num n => toString n
  | .str s => sq ++ s ++ sq
  | .arr l => "[" ++ String.intercalate ", " (pyReprList l) ++ "]"
  | .obj l => "\x7b" ++ String.intercalate ", " (pyReprPairs l) ++ "\x7d"

/-- `repr` of the elements of a Python list. -/
def pyReprList : List Json → List String
  | [] => []
  | j :: js => pyRepr j :: pyReprList js

/-- `repr` of the key/value pairs of a Python dict. -/
def pyReprPairs : List (String × Json) → List String
  | [] => []
  | (k, v) :: rest => (sq ++ k ++ sq ++ ": " ++ pyRepr v) :: pyReprPairs rest

end

end ClaudeVisualizer

namespace ClaudeVisualizer

/-- Python `str(x)` of a JSON-derived value. -/
def pyStr : Json → String
  | .str s => s
  | j => pyRepr j

/-- Lowercase hexadecimal digit. -/
def hexDigit (n : Nat) : String :=
  String.singleton (if n < 10 then Char.ofNat (48 + n) else Char.ofNat (87 + n))

/-- Four lowercase hexadecimal digits, as in Python `"\\u%04x"`. -/
def hex4 (n : Nat) : String :=
  hexDigit (n / 4096 % 16) ++ hexDigit (n / 256 % 16) ++ hexDigit (n / 16 % 16) ++ hexDigit (n % 16)

/-- Escaping of one character by `json.dumps` (default `ensure_ascii=True`). -/
def jsonEscapeChar (c : Char) : String :=
  if c = '"' then "\\\""
  else if c = '\\' then "\\\\"
  else if c = '\x08' then "\\b"
  else if c = '\x0c' then "\\f"
  else if c = '\n' then "\\n"
  else if c = '\r' then "\\r"
  else if c = '\t' then "\\t"
  else if c.toNat < 32 ∨ c.toNat > 126 then
    if c.toNat < 65536 then "\\u" ++ hex4 c.toNat
    else
      let v := c.toNat - 65536
      "\\u" ++ hex4 (55296 + v / 1024) ++ "\\u" ++ hex4 (56320 + v % 1024)
  else String.singleton c

/-- A JSON string literal as produced by `json.dumps`. -/
def jsonQuote (s : String) : String :=
  "\"" ++ String.join (s.data.map jsonEscapeChar) ++ "\""

mutual

/-- Python `json.dumps(data, indent=2)`, at current indentation `ind`. -/
def dumpsAux : Json → String → String
  | .null, _ => "null"
  | .bool true, _ => "true"
  | .bool false, _ => "false"
  | .num n, _ => toString n
  | .str s, _ => jsonQuote s
  | .arr [], _ => "[]"
  | .arr (x :: xs), ind =>
    let ind2 := ind ++ "  "
    "[\n" ++ ind2 ++ String.intercalate (",\n" ++ ind2) (dumpsList (x :: xs) ind2) ++
      "\n" ++ ind ++ "]"
  | .obj [], _ => "\x7b\x7d"
  | .obj (kv :: kvs), ind =>
    let ind2 := ind ++ "  "
    "\x7b\n" ++ ind2 ++ String.intercalate (",\n" ++ ind2) (dumpsPairs (kv :: kvs) ind2) ++
      "\n" ++ ind ++ "\x7d"

/-- Serialization of the elements of a JSON array. -/
def dumpsList : List Json → String → List String
  | [], _ => []
  | j :: js, ind => dumpsAux j ind :: dumpsList js ind

/-- Serialization of the key/value pairs of a JSON object. -/
def dumpsPairs : List (String × Json) → String → List String
  | [], _ => []
  | (k, v) :: rest, ind => (jsonQuote k ++ ": " ++ dumpsAux v ind) :: dumpsPairs rest ind

end

end ClaudeVisualizer

namespace ClaudeVisualizer

/-- Python `json.dumps(data, indent=2)`. -/
def dumps (j : Json) : String := dumpsAux j ""

/-- Source `format_json(data, max_length)`; the Python default for
`max_length` is 500 and every call site uses that default. -/
def format_json (data : Json) (max_length : Nat) : String :=
  let json_str := dumps data
  if json_str.length > max_length then json_str.take max_length ++ "\n  ... (truncated)"
  else json_str

/-- Source `ColorScheme` from `themes.py`: a passive record of Rich style strings. -/
structure ColorScheme where
  title : String
  role : String
  metadata_key : String
  metadata_value : String
  content_label : String
  block_label : String
  text_label : String
  text_content : String
  tool_use_label : String
  tool_name : String
  tool_id : String
  input_label : String
  tool_result_label : String
  success : String
  error : String
  output_label : String
  unknown_type : String
  panel_border : String
  usage_border : String
  usage_header : String
  usage_metric : String
  usage_value : String
  json_theme : String

/-- Source `DARK_THEME` from `themes.py`. -/
def DARK_THEME : ColorScheme where
  title := "bold bright_blue"
  role := "italic bright_cyan"
  metadata_key := "bright_black"
  metadata_value := "white"
  content_label := "bold white"
  block_label := "bright_black"
  text_label := "bright_cyan"
  text_content := "white"
  tool_use_label := "bright_yellow"
  tool_name := "bold bright_yellow"
  tool_id := "bright_black"
  input_label := "bright_green"
  tool_result_label := "bright_yellow"
  success := "bright_green"
  error := "bright_red"
  output_label := "bright_cyan"
  unknown_type := "bright_magenta"
  panel_border := "bright_blue"
  usage_border := "bright_magenta"
  usage_header := "bold bright_magenta"
  usage_metric := "bright_cyan"
  usage_value := "bright_green"
  json_theme := "monokai"

/-- Rich markup wrapping, as produced by the source f-strings: open-bracket,
style, close-bracket around the text, then the closing tag. -/
def sty (style s : String) : String := "[" ++ style ++ "]" ++ s ++ "[/" ++ style ++ "]"

/-- The content of one node of a Rich tree: a markup string (`tree.add(str)`),
a `rich.text.Text` leaf with its style, or a `rich.syntax.Syntax` leaf with its
code string, lexer name and `line_numbers` flag. -/
inductive RC where
  | markup : String → RC
  | rtext : String → String → RC
  | rcode : String → String → Bool → RC

/-- A node of a Rich tree together with the children added beneath it. -/
inductive Node where
  | mk : RC → List Node → Node

/-- The content of a tree node. -/
def Node.content : Node → RC
  | .mk c _ => c

/-- The children of a tree node. -/
def Node.children : Node → List Node
  | .mk _ cs => cs

/-- Source `ParsedContent` from `parser.py`: a type tag and the raw dict payload. -/
structure ParsedContent where
  type : String
  data : JObj

/-- What one rendering routine did to the tree it was handed: the nodes it
added, and `some e` if it then raised the Python exception `e`. -/
abbrev RenderOut := List Node × Option String

/-- Source `render_text_content` (visualizer.py lines 25-33). -/
def render_text_content (content : ParsedContent) (theme : ColorScheme) : RenderOut :=
  let text := jGetD content.data "text" (.str "")
  if truthy text then
    match text with
    | .str s =>
      let s := if s.length > 1000 then s.take 1000 ++ "\n... (truncated)" else s
      ([.mk (.markup (sty theme.text_label "Text")) [.mk (.rtext s theme.text_content) []]],
        none)
    | _ => ([], some "TypeError: object of this type has no len or is not rich-renderable")
  else ([], none)

/-- Source `render_tool_use` (visualizer.py lines 36-65). -/
def render_tool_use (content : ParsedContent) (theme : ColorScheme) : RenderOut :=
  let tool_name := jGetD content.data "name" (.str "unknown")
  let tool_id := jGetD content.data "id" (.str "")
  let tool_input := jGetD content.data "input" (.obj [])
  let caller := jGetD content.data "caller" (.obj [])
  let lbl := sty theme.tool_use_label "Tool Use:" ++ " " ++ sty theme.tool_name (pyStr tool_name)
  let idChildren : List Node :=
    if truthy tool_id then [.mk (.markup (sty theme.tool_id "ID:" ++ " " ++ pyStr tool_id)) []]
    else []
  let inputChildren : List Node :=
    if truthy tool_input then
      [.mk (.markup (sty theme.input_label "Input:"))
        [.mk (.rcode (format_json tool_input 500) "json" false) []]]
    else []
  if truthy caller then
    match caller with
    | .obj kvs =>
      let caller_type := jGetD kvs "type" (.str "unknown")
      let caller_label :=
        if jIsStr caller_type "code_execution_20250825" then "code execution environment"
        else if jIsStr caller_type "direct" then "model (direct)"
        else pyStr caller_type
      ([.mk (.markup lbl)
          (idChildren ++
            [.mk (.markup (sty theme.metadata_key "Caller:" ++ " " ++ caller_label)) []] ++
            inputChildren)], none)
    | _ => ([.mk (.markup lbl) idChildren], some "AttributeError: caller object has no get")
  else ([.mk (.markup lbl) (idChildren ++ inputChildren)], none)

/-- The `input` handling of `render_server_tool_use` (visualizer.py lines 84-103):
the nodes added under the server node for a truthy `tool_input`. -/
def server_tool_use_input (tool_input : Json) (theme : ColorScheme) : RenderOut :=
  let genericInput : RenderOut :=
    ([.mk (.markup (sty theme.input_label "Input:"))
        [.mk (.rcode (format_json tool_input 500) "json" false) []]], none)
  if truthy tool_input then
    match tool_input with
    | .obj kvs =>
      let code := jLookup kvs "code"
      if truthyOpt code then
        match code with
        | some (.str s) =>
          let s := if s.length > 1000 then s.take 1000 ++ "\n... (truncated)" else s
          ([.mk (.markup (sty theme.input_label "Code:"))
              [.mk (.rcode s "python" true) []]], none)
        | _ =>
          ([.mk (.markup (sty theme.input_label "Code:")) []],
            some "TypeError: object of this type has no len or is not rich-renderable")
      else genericInput
    | _ => ([], some "AttributeError: input object has no get")
  else ([], none)

/-- The per-item loop over a list-valued `content` of `render_tool_result`
(visualizer.py lines 120-131). -/
def tool_result_list_items (items : List Json) (theme : ColorScheme) : RenderOut :=
  match items with
  | [] => ([], none)
  | item :: rest =>
    let textDict : Option JObj :=
      match item with
      | .obj kvs =>
        if (match jLookup kvs "type" with | some (.str t) => t == "text" | _ => false) then
          some kvs
        else none
      | _ => none
    match textDict with
    | some kvs =>
      let text := jGetD kvs "text" (.str "")
      if truthy text then
        match text with
        | .str s =>
          let s := if s.length > 1000 then s.take 1000 ++ "\n... (truncated)" else s
          let node : Node := .mk (.markup (sty theme.output_label "Output:"))
            [.mk (.rtext s theme.text_content) []]
          let r := tool_result_list_items rest theme
          (node :: r.1, r.2)
        | _ =>
          ([.mk (.markup (sty theme.output_label "Output:")) []],
            some "TypeError: object of this type has no len or is not rich-renderable")
      else tool_result_list_items rest theme
    | none =>
      let node : Node := .mk (.markup (sty theme.output_label "Output:"))
        [.mk (.markup (pyStr item)) []]
      let r := tool_result_list_items rest theme
      (node :: r.1, r.2)

/-- Source `render_tool_result` (visualizer.py lines 106-137). -/
def render_tool_result (content : ParsedContent) (theme : ColorScheme) : RenderOut :=
  let tool_id := jGetD content.data "tool_use_id" (.str "")
  let is_error := jGetD content.data "is_error" (.bool false)
  let result_content := jGetD content.data "content" (.str "")
  let status := if truthy is_error then sty theme.error "Error" else sty theme.success "Success"
  let lbl := sty theme.tool_result_label "Tool Result:" ++ " " ++ status
  let idChildren : List Node :=
    if truthy tool_id then
      [.mk (.markup (sty theme.tool_id "Tool Use ID:" ++ " " ++ pyStr tool_id)) []]
    else []
  let out : RenderOut :=
    if truthy result_content then
      match result_content with
      | .arr items => tool_result_list_items items theme
      | _ =>
        let text := pyStr result_content
        let text := if text.length > 1000 then text.take 1000 ++ "\n... (truncated)" else text
        ([.mk (.markup (sty theme.output_label "Output:"))
            [.mk (.rtext text theme.text_content) []]], none)
    else ([], none)
  ([.mk (.markup lbl) (idChildren ++ out.1)], out.2)

/-- One of the `stdout`/`stderr` sub-nodes of `render_code_execution_result`
(visualizer.py lines 154-168): the node is added first, then the value is
truncated and added as a `Text` leaf (which raises for a non-string value). -/
def code_exec_stream (label : String) (v : Json) (theme : ColorScheme) : RenderOut :=
  match v with
  | .str s =>
    let s := if s.length > 2000 then s.take 2000 ++ "\n... (truncated)" else s
    ([.mk (.markup label) [.mk (.rtext s theme.text_content) []]], none)
  | _ =>
    ([.mk (.markup label) []],
      some "TypeError: object of this type has no len or is not rich-renderable")

/-- Source `render_code_execution_result` (visualizer.py lines 140-179). -/
def render_code_execution_result (content : ParsedContent) (theme : ColorScheme) : RenderOut :=
  let nested_content := jGetD content.data "content" (.obj [])
  match nested_content with
  | .obj kvs =>
    let return_code := jGetD kvs "return_code" (.num 0)
    let stdout := jGetD kvs "stdout" (.str "")
    let stderr := jGetD kvs "stderr" (.str "")
    let status :=
      if pyEqZero return_code then
        sty theme.success ("Success (exit " ++ pyStr return_code ++ ")")
      else sty theme.error ("Error (exit " ++ pyStr return_code ++ ")")
    let lbl := sty theme.tool_result_label "Code Execution Result:" ++ " " ++ status
    if truthy stdout then
      let o := code_exec_stream (sty theme.success "stdout:") stdout theme
      match o.2 with
      | some e => ([.mk (.markup lbl) o.1], some e)
      | none =>
        if truthy stderr then
          let e := code_exec_stream (sty theme.error "stderr:") stderr theme
          ([.mk (.markup lbl) (o.1 ++ e.1)], e.2)
        else ([.mk (.markup lbl) o.1], none)
    else
      if truthy stderr then
        let e := code_exec_stream (sty theme.error "stderr:") stderr theme
        ([.mk (.markup lbl) e.1], e.2)
      else
        ([.mk (.markup lbl) [.mk (.markup (sty theme.metadata_key "(no output)")) []]], none)
  | _ =>
    ([.mk (.markup (sty theme.tool_result_label "Code Execution Result"))
        [.mk (.rcode (format_json (Json.obj content.data) 500) "json" false) []]], none)

/-- Source `render_server_tool_use` (visualizer.py lines 68-103). -/
def render_server_tool_use (content : ParsedContent) (theme : ColorScheme) : RenderOut :=
  let tool_id := jGetD content.data "id" (.str "")
  let tool_input := jGetD content.data "input" (.obj [])
  let caller := jGetD content.data "caller" (.obj [])
  let lbl := sty theme.tool_use_label "Server Tool Use"
  let idChildren : List Node :=
    if truthy tool_id then [.mk (.markup (sty theme.tool_id "ID:" ++ " " ++ pyStr tool_id)) []]
    else []
  if truthy caller then
    match caller with
    | .obj kvs =>
      let caller_type := jGetD kvs "type" (.str "unknown")
      let callerChildren : List Node :=
        [.mk (.markup (sty theme.metadata_key "Caller:" ++ " " ++ pyStr caller_type)) []]
      let inp := server_tool_use_input tool_input theme
      ([.mk (.markup lbl) (idChildren ++ callerChildren ++ inp.1)], inp.2)
    | _ => ([.mk (.markup lbl) idChildren], some "AttributeError: caller object has no get")
  else
    let inp := server_tool_use_input tool_input theme
    ([.mk (.markup lbl) (idChildren ++ inp.1)], inp.2)

/-- Source `render_content_block` (visualizer.py lines 182-200): the classifier
dispatching on the declared type tag, with the unknown-type fallback. -/
def render_content_block (content : ParsedContent) (theme : ColorScheme) : RenderOut :=
  if content.type == "text" then render_text_content content theme
  else if content.type == "tool_use" then render_tool_use content theme
  else if content.type == "tool_result" then render_tool_result content theme
  else if content.type == "server_tool_use" then render_server_tool_use content theme
  else if content.type == "code_execution_tool_result" then
    render_code_execution_result content theme
  else
    ([.mk (.markup (sty theme.unknown_type "Unknown Type:" ++ " " ++ content.type))
        [.mk (.rcode (format_json (Json.obj content.data) 500) "json" false) []]], none)

/-- Source `ParsedMessage` from `parser.py`: `model` and `stop_reason` are
`Optional[str]`, and `usage` is a `Dict[str, int]` (empty when absent). -/
structure ParsedMessage where
  role : String
  content : List ParsedContent
  model : Option String
  stop_reason : Option String
  usage : List (String × Int)

/-- The table built by `create_usage_table`: its (metric, value) rows. -/
structure UsageTable where
  rows : List (String × String)

/-- Source `create_usage_table` (visualizer.py lines 203-217). -/
def create_usage_table (usage : List (String × Int)) : UsageTable :=
  let input_tokens := (usage.lookup "input_tokens").getD 0
  let output_tokens := (usage.lookup "output_tokens").getD 0
  let total_tokens := input_tokens + output_tokens
  ⟨[("Input Tokens", toString input_tokens),
    ("Output Tokens", toString output_tokens),
    ("Total Tokens", toString total_tokens)]⟩

/-- Python truthiness of an `Optional[str]` (`None` and `""` are falsy). -/
def truthyStr : Option String → Bool
  | some s => s != ""
  | none => false

/-- The metadata lines of `visualize_message` (visualizer.py lines 239-243):
the `Model:` and `Stop Reason:` lines, each only when its field is truthy. -/
def meta_children (m : ParsedMessage) (theme : ColorScheme) : List Node :=
  (if truthyStr m.model then
    [Node.mk (.markup (sty theme.metadata_key "Model:" ++ " " ++ m.model.getD "")) []]
   else []) ++
  (if truthyStr m.stop_reason then
    [Node.mk (.markup (sty theme.metadata_key "Stop Reason:" ++ " " ++ m.stop_reason.getD "")) []]
   else [])

/-- The block loop of `visualize_message` (visualizer.py lines 248-250): one
"Block i" wrapper per content block, 1-based; a raise inside a renderer stops
the loop after the nodes added so far. -/
def render_blocks (blocks : List ParsedContent) (i : Nat) (theme : ColorScheme) : RenderOut :=
  match blocks with
  | [] => ([], none)
  | c :: rest =>
    let r := render_content_block c theme
    let node : Node := .mk (.markup (sty theme.block_label ("Block " ++ toString i))) r.1
    match r.2 with
    | some e => ([node], some e)
    | none =>
      let r2 := render_blocks rest (i + 1) theme
      (node :: r2.1, r2.2)

/-- Source `visualize_message` (visualizer.py lines 220-272). The result models
what reaches the console: `none` when a renderer raised (the exception
propagates before anything is printed), otherwise the printed tree and the
usage panel (`none` when `message.usage` is empty, line 263). -/
def visualize_message (message : ParsedMessage) (theme : ColorScheme) :
    Option (Node × Option UsageTable) :=
  let rootLbl := sty theme.title "Claude Message" ++ " (" ++ sty theme.role message.role ++ ")"
  let usagePanel : Option UsageTable :=
    if message.usage.isEmpty then none else some (create_usage_table message.usage)
  if message.content.isEmpty then
    some (.mk (.markup rootLbl) (meta_children message theme), usagePanel)
  else
    let r := render_blocks message.content 1 theme
    match r.2 with
    | some _ => none
    | none =>
      let contentNode : Node := .mk
        (.markup (sty theme.content_label "Content" ++ " (" ++
          toString message.content.length ++ " blocks)")) r.1
      some (.mk (.markup rootLbl) (meta_children message theme ++ [contentNode]), usagePanel)

/-- Truncation Policy as the spec states it (§4.7): the text unchanged when its
length is at most the limit, otherwise the first `limit` characters followed by
the marker. -/
def truncate (text : String) (limit : Nat) (marker : String) : String :=
  if text.length ≤ limit then text else text.take limit ++ marker

/-- Whether a JSON value is a key-value object (a Python dict). -/
def Json.isObj : Json → Bool
  | .obj _ => true
  | _ => false

/-- The source truncation idiom `if len(t) > L: t = t[:L] + marker` is an
instance of the spec truncation policy. -/
theorem truncate_eq_ite (s : String) (l : Nat) (m : String) :
    (if s.length > l then s.take l ++ m else s) = truncate s l m := by
  unfold truncate
  rcases Nat.lt_or_ge l s.length with h | h
  · rw [if_pos h, if_neg (Nat.not_le.2 h)]
  · rw [if_neg (Nat.not_lt.2 h), if_pos h]

/-- The length of a truncated-and-marked string: the marker never counts
toward the limit. -/
theorem truncate_length (s : String) (l : Nat) (m : String) (h : l < s.length) :
    (truncate s l m).length = l + m.length := by
  rw [truncate, if_neg (Nat.not_le.2 h), String.length_append, String.take_eq,
    String.length_mk, List.length_take]
  have : min l s.data.length = l := Nat.min_eq_left (Nat.le_of_lt h)
  rw [this]

end ClaudeVisualizer

namespace ClaudeVisualizer

/-- C1: for every content block whose kind string is not in the known set
of text, tool_use, tool_result, server_tool_use, code_execution_tool_result,
the classifier routes to the fallback renderer: rendering succeeds (no
exception), and the emitted node is labeled with the literal kind string and
carries the raw payload serialized as structured data. -/
theorem unknown_kind_fallback (content : ParsedContent) (theme : ColorScheme)
    (h : content.type ∉ (["text", "tool_use", "tool_result", "server_tool_use",
      "code_execution_tool_result"] : List String)) :
    render_content_block content theme =
      ([.mk (.markup (sty theme.unknown_type "Unknown Type:" ++ " " ++ content.type))
          [.mk (.rcode (format_json (Json.obj content.data) 500) "json" false) []]], none) := by
  simp only [List.mem_cons, List.not_mem_nil, or_false, not_or] at h
  obtain ⟨h1, h2, h3, h4, h5⟩ := h
  simp [render_content_block, h1, h2, h3, h4, h5]

/-- Witness for C1, at the spec scenario block of kind custom_v2 with payload field foo = bar. -/
theorem unknown_kind_fallback_witness :
    ("custom_v2" ∉ (["text", "tool_use", "tool_result", "server_tool_use",
      "code_execution_tool_result"] : List String)) ∧
    render_content_block ⟨"custom_v2", [("type", Json.str "custom_v2"), ("foo", Json.str "bar")]⟩
        DARK_THEME =
      ([.mk (.markup (sty DARK_THEME.unknown_type "Unknown Type:" ++ " " ++ "custom_v2"))
          [.mk (.rcode (format_json
            (Json.obj [("type", Json.str "custom_v2"), ("foo", Json.str "bar")]) 500)
            "json" false) []]], none) :=
  ⟨by decide, unknown_kind_fallback
    ⟨"custom_v2", [("type", Json.str "custom_v2"), ("foo", Json.str "bar")]⟩
    DARK_THEME (by decide)⟩

/-- C2: for every text content block whose `text` field is a string (or is
absent, which defaults to the empty string): empty or absent text emits no node
at all; text of length at most 1000 is emitted unchanged; longer text is
emitted as exactly its first 1000 characters followed by the truncation
marker. -/
theorem text_block_truncation (data : JObj) (theme : ColorScheme) (s : String)
    (h : jGetD data "text" (Json.str "") = Json.str s) :
    render_text_content ⟨"text", data⟩ theme =
      (if s = "" then ([], none)
       else if s.length ≤ 1000 then
        ([.mk (.markup (sty theme.text_label "Text"))
            [.mk (.rtext s theme.text_content) []]], none)
       else
        ([.mk (.markup (sty theme.text_label "Text"))
            [.mk (.rtext (s.take 1000 ++ "\n... (truncated)") theme.text_content) []]],
          none)) := by
  simp only [render_text_content, h, truthy]
  by_cases hs : s = ""
  · simp [hs]
  · simp only [bne_iff_ne, ne_eq, hs, not_false_eq_true, if_true, if_neg hs]
    by_cases hl : s.length ≤ 1000
    · rw [if_pos hl, if_neg (Nat.not_lt.2 hl)]; simp
    · rw [if_neg hl, if_pos (Nat.lt_of_not_le hl)]; simp

/-- Witness for C2 at a text block whose text field is "hi". -/
theorem text_block_truncation_witness :
    jGetD [("text", Json.str "hi")] "text" (Json.str "") = Json.str "hi" ∧
    render_text_content ⟨"text", [("text", Json.str "hi")]⟩ DARK_THEME =
      (if "hi" = "" then ([], none)
       else if String.length "hi" ≤ 1000 then
        ([.mk (.markup (sty DARK_THEME.text_label "Text"))
            [.mk (.rtext "hi" DARK_THEME.text_content) []]], none)
       else
        ([.mk (.markup (sty DARK_THEME.text_label "Text"))
            [.mk (.rtext (String.take "hi" 1000 ++ "\n... (truncated)") DARK_THEME.text_content) []]],
          none)) :=
  ⟨rfl, text_block_truncation [("text", Json.str "hi")] DARK_THEME "hi" rfl⟩

/-- C5: for every tool_result block whose `is_error` field is a boolean `b`
(or absent, defaulting to false), the renderer adds exactly one node and its
status line reads "Error" if and only if `b` is true, otherwise "Success" —
regardless of the block's `content` value. -/
theorem tool_result_status (data : JObj) (theme : ColorScheme) (b : Bool)
    (h : jGetD data "is_error" (Json.bool false) = Json.bool b) :
    (render_tool_result ⟨"tool_result", data⟩ theme).1.map Node.content =
      [.markup (sty theme.tool_result_label "Tool Result:" ++ " " ++
        (if b then sty theme.error "Error" else sty theme.success "Success"))] := by
  simp only [render_tool_result, h, truthy]
  cases b <;> simp [Node.content]

/-- Witness for C5 at a block with `is_error: true` and non-text content. -/
theorem tool_result_status_witness :
    jGetD [("is_error", Json.bool true), ("content", Json.arr [Json.num 3])] "is_error"
        (Json.bool false) = Json.bool true ∧
    (render_tool_result
        ⟨"tool_result", [("is_error", Json.bool true), ("content", Json.arr [Json.num 3])]⟩
        DARK_THEME).1.map Node.content =
      [.markup (sty DARK_THEME.tool_result_label "Tool Result:" ++ " " ++
        (if true then sty DARK_THEME.error "Error" else sty DARK_THEME.success "Success"))] :=
  ⟨rfl, tool_result_status [("is_error", Json.bool true), ("content", Json.arr [Json.num 3])]
    DARK_THEME true rfl⟩

/-- C6: for every code_execution_tool_result block whose nested `content` is a
key-value object and whose `return_code` is an integer `n` (or absent,
defaulting to 0), the status line is success iff `n = 0` and always shows the
literal exit code; and with `n = 0` and falsy (empty or absent) stdout and
stderr the node shows the success status "exit 0" and the explicit
"(no output)" placeholder. -/
theorem code_exec_status (data : JObj) (theme : ColorScheme) (kvs : JObj) (n : Int)
    (hc : jGetD data "content" (Json.obj []) = Json.obj kvs)
    (hrc : jGetD kvs "return_code" (Json.num 0) = Json.num n) :
    ((render_code_execution_result ⟨"code_execution_tool_result", data⟩ theme).1.map
        Node.content =
      [.markup (sty theme.tool_result_label "Code Execution Result:" ++ " " ++
        (if n = 0 then sty theme.success ("Success (exit " ++ toString n ++ ")")
         else sty theme.error ("Error (exit " ++ toString n ++ ")")))]) ∧
    (n = 0 → truthy (jGetD kvs "stdout" (Json.str "")) = false →
      truthy (jGetD kvs "stderr" (Json.str "")) = false →
      render_code_execution_result ⟨"code_execution_tool_result", data⟩ theme =
        ([.mk (.markup (sty theme.tool_result_label "Code Execution Result:" ++ " " ++
            sty theme.success "Success (exit 0)"))
            [.mk (.markup (sty theme.metadata_key "(no output)")) []]], none)) := by
  constructor
  · simp only [render_code_execution_result, hc, hrc, pyEqZero, pyStr, pyRepr, beq_iff_eq]
    repeat' split
    all_goals simp [Node.content]
  · intro h0 hso hse
    subst h0
    simp only [render_code_execution_result, hc, hrc, hso, hse, pyEqZero, pyStr, pyRepr,
      beq_self_eq_true, if_true, Bool.false_eq_true, if_false, ite_true, ite_false]
    rfl

/-- Witness for C6 at a code_execution_tool_result block whose nested content
holds only return_code = 0. -/
theorem code_exec_status_witness :
    jGetD [("content", Json.obj [("return_code", Json.num 0)])] "content" (Json.obj []) =
      Json.obj [("return_code", Json.num 0)] ∧
    jGetD [("return_code", Json.num 0)] "return_code" (Json.num 0) = Json.num 0 ∧
    ((render_code_execution_result
        ⟨"code_execution_tool_result", [("content", Json.obj [("return_code", Json.num 0)])]⟩
        DARK_THEME).1.map Node.content =
      [.markup (sty DARK_THEME.tool_result_label "Code Execution Result:" ++ " " ++
        (if (0 : Int) = 0 then sty DARK_THEME.success ("Success (exit " ++ toString (0 : Int) ++ ")")
         else sty DARK_THEME.error ("Error (exit " ++ toString (0 : Int) ++ ")")))]) ∧
    render_code_execution_result
        ⟨"code_execution_tool_result", [("content", Json.obj [("return_code", Json.num 0)])]⟩
        DARK_THEME =
      ([.mk (.markup (sty DARK_THEME.tool_result_label "Code Execution Result:" ++ " " ++
          sty DARK_THEME.success "Success (exit 0)"))
          [.mk (.markup (sty DARK_THEME.metadata_key "(no output)")) []]], none) :=
  ⟨rfl, rfl,
    (code_exec_status [("content", Json.obj [("return_code", Json.num 0)])] DARK_THEME
      [("return_code", Json.num 0)] 0 rfl rfl).1,
    (code_exec_status [("content", Json.obj [("return_code", Json.num 0)])] DARK_THEME
      [("return_code", Json.num 0)] 0 rfl rfl).2 rfl rfl rfl⟩

/-- C4: for every message that renders without an exception, the usage panel
appears iff the usage mapping is non-empty, and the displayed total row equals
input tokens plus output tokens (each defaulting to 0 when absent); the total
is non-negative whenever the token counts are. -/
theorem usage_panel_total (m : ParsedMessage) (theme : ColorScheme) (tree : Node)
    (up : Option UsageTable)
    (h : visualize_message m theme = some (tree, up)) :
    (up.isSome ↔ m.usage ≠ []) ∧
    (up = if m.usage.isEmpty then none else some (create_usage_table m.usage)) ∧
    (create_usage_table m.usage).rows =
      [("Input Tokens", toString ((m.usage.lookup "input_tokens").getD 0)),
       ("Output Tokens", toString ((m.usage.lookup "output_tokens").getD 0)),
       ("Total Tokens", toString ((m.usage.lookup "input_tokens").getD 0 +
          (m.usage.lookup "output_tokens").getD 0))] ∧
    (0 ≤ (m.usage.lookup "input_tokens").getD 0 →
      0 ≤ (m.usage.lookup "output_tokens").getD 0 →
      0 ≤ (m.usage.lookup "input_tokens").getD 0 + (m.usage.lookup "output_tokens").getD 0) := by
  have hup : up = if m.usage.isEmpty then none else some (create_usage_table m.usage) := by
    simp only [visualize_message] at h
    split at h
    · exact (Prod.ext_iff.1 (Option.some.inj h)).2.symm
    · split at h
      · exact absurd h (by simp)
      · exact (Prod.ext_iff.1 (Option.some.inj h)).2.symm
  refine ⟨?_, hup, ?_, fun h1 h2 => add_nonneg h1 h2⟩
  · rw [hup]
    by_cases he : m.usage.isEmpty
    · simp [he, List.isEmpty_iff.1 he]
    · have hne : m.usage ≠ [] := fun hc => he (by simp [hc])
      simp [he, hne]
  · simp [create_usage_table]

/-- Witness for C4 at the spec scenario message with usage input_tokens = 5,
output_tokens = 3. -/
theorem usage_panel_total_witness :
    visualize_message ⟨"assistant", [], some "m1", none,
        [("input_tokens", 5), ("output_tokens", 3)]⟩ DARK_THEME =
      some (.mk (.markup (sty DARK_THEME.title "Claude Message" ++ " (" ++
          sty DARK_THEME.role "assistant" ++ ")"))
          [.mk (.markup (sty DARK_THEME.metadata_key "Model:" ++ " " ++ "m1")) []],
        some ⟨[("Input Tokens", "5"), ("Output Tokens", "3"), ("Total Tokens", "8")]⟩) ∧
    ((some ⟨[("Input Tokens", "5"), ("Output Tokens", "3"), ("Total Tokens", "8")]⟩ :
        Option UsageTable).isSome ↔
      ([("input_tokens", 5), ("output_tokens", 3)] : List (String × Int)) ≠ []) ∧
    (create_usage_table [("input_tokens", 5), ("output_tokens", 3)]).rows =
      [("Input Tokens", toString ((([("input_tokens", 5), ("output_tokens", 3)] :
          List (String × Int)).lookup "input_tokens").getD 0)),
       ("Output Tokens", toString ((([("input_tokens", 5), ("output_tokens", 3)] :
          List (String × Int)).lookup "output_tokens").getD 0)),
       ("Total Tokens", toString ((([("input_tokens", 5), ("output_tokens", 3)] :
          List (String × Int)).lookup "input_tokens").getD 0 +
          (([("input_tokens", 5), ("output_tokens", 3)] :
            List (String × Int)).lookup "output_tokens").getD 0))] :=
  ⟨rfl,
    (usage_panel_total ⟨"assistant", [], some "m1", none,
      [("input_tokens", 5), ("output_tokens", 3)]⟩ DARK_THEME _ _ rfl).1,
    (usage_panel_total ⟨"assistant", [], some "m1", none,
      [("input_tokens", 5), ("output_tokens", 3)]⟩ DARK_THEME _ _ rfl).2.2.1⟩

/-- C10: for every message whose content sequence is empty, the assembled tree
has exactly the metadata children — no "Content (0 blocks)" header and no
"Block N" wrapper is emitted. -/
theorem empty_content_no_section (m : ParsedMessage) (theme : ColorScheme)
    (h : m.content = []) :
    visualize_message m theme =
      some (.mk (.markup (sty theme.title "Claude Message" ++ " (" ++
          sty theme.role m.role ++ ")")) (meta_children m theme),
        if m.usage.isEmpty then none else some (create_usage_table m.usage)) := by
  simp [visualize_message, h]

/-- Witness for C10 at a bare user message with empty content. -/
theorem empty_content_no_section_witness :
    (⟨"user", [], none, none, []⟩ : ParsedMessage).content = [] ∧
    visualize_message ⟨"user", [], none, none, []⟩ DARK_THEME =
      some (.mk (.markup (sty DARK_THEME.title "Claude Message" ++ " (" ++
          sty DARK_THEME.role "user" ++ ")"))
          (meta_children ⟨"user", [], none, none, []⟩ DARK_THEME),
        if ([] : List (String × Int)).isEmpty then none
        else some (create_usage_table [])) :=
  ⟨rfl, empty_content_no_section ⟨"user", [], none, none, []⟩ DARK_THEME rfl⟩

/-- C3 counterexample: a server_tool_use block whose caller type tag is
"code_execution_20250825" renders the tag verbatim on the Caller line — not
the mapped phrase "code execution environment" that `render_tool_use` would
produce and the claim requires. -/
theorem server_caller_unmapped_cex :
    render_server_tool_use ⟨"server_tool_use",
        [("caller", Json.obj [("type", Json.str "code_execution_20250825")])]⟩ DARK_THEME =
      ([.mk (.markup (sty DARK_THEME.tool_use_label "Server Tool Use"))
          [.mk (.markup (sty DARK_THEME.metadata_key "Caller:" ++ " " ++
            "code_execution_20250825")) []]], none) ∧
    sty DARK_THEME.metadata_key "Caller:" ++ " " ++ "code_execution_20250825" ≠
      sty DARK_THEME.metadata_key "Caller:" ++ " " ++ "code execution environment" :=
  ⟨rfl, by decide⟩

/-- C3 amended: for every server_tool_use block with a non-empty dict `caller`,
the Caller line shows the caller type tag verbatim (via Python `str`) for all
tags — the label mapping of `render_tool_use` is not applied here. -/
theorem server_caller_verbatim (data : JObj) (theme : ColorScheme) (kvs : JObj)
    (h : jGetD data "caller" (Json.obj []) = Json.obj kvs) (hne : kvs ≠ []) :
    Node.mk (.markup (sty theme.metadata_key "Caller:" ++ " " ++
        pyStr (jGetD kvs "type" (Json.str "unknown")))) [] ∈
      (render_server_tool_use ⟨"server_tool_use", data⟩ theme).1.flatMap Node.children := by
  simp only [render_server_tool_use, h, truthy, List.isEmpty_eq_true]
  rw [if_pos (by simp [hne])]
  simp [Node.children, List.mem_append]

/-- Witness for C3 (amended) at a caller tag "code_execution_20250825". -/
theorem server_caller_verbatim_witness :
    jGetD [("caller", Json.obj [("type", Json.str "code_execution_20250825")])] "caller"
        (Json.obj []) = Json.obj [("type", Json.str "code_execution_20250825")] ∧
    (([("type", Json.str "code_execution_20250825")] : JObj) ≠ []) ∧
    Node.mk (.markup (sty DARK_THEME.metadata_key "Caller:" ++ " " ++
        pyStr (jGetD [("type", Json.str "code_execution_20250825")] "type"
          (Json.str "unknown")))) [] ∈
      (render_server_tool_use ⟨"server_tool_use",
        [("caller", Json.obj [("type", Json.str "code_execution_20250825")])]⟩
        DARK_THEME).1.flatMap Node.children :=
  ⟨rfl, List.cons_ne_nil _ _,
    server_caller_verbatim [("caller", Json.obj [("type", Json.str "code_execution_20250825")])]
      DARK_THEME [("type", Json.str "code_execution_20250825")] rfl (List.cons_ne_nil _ _)⟩

/-- C7 counterexample: rendering is not total over syntactically valid block
values — a text block whose `text` field is the number 5 makes the Python
renderer raise (`len(5)`), modelled here as an exception outcome. -/
theorem render_raises_cex :
    render_content_block ⟨"text", [("type", Json.str "text"), ("text", Json.num 5)]⟩
        DARK_THEME =
      ([], some "TypeError: object of this type has no len or is not rich-renderable") ∧
    (render_content_block ⟨"text", [("type", Json.str "text"), ("text", Json.num 5)]⟩
        DARK_THEME).2 ≠ none :=
  ⟨rfl, fun hcon => Option.noConfusion hcon⟩

/-- C7 amended: when a code_execution_tool_result block's nested `content` is
not a key-value object the renderer falls back to serializing the entire raw
payload as structured data without raising, and no renderer raises merely
because an expected field is missing (every kind string renders the empty
payload without an exception); but rendering is not total — a present field of
an unexpected type can raise (see the counterexample). -/
theorem render_degrades_gracefully (data : JObj) (theme : ColorScheme) (j : Json) (ty : String)
    (hj : jGetD data "content" (Json.obj []) = j) (hno : j.isObj = false) :
    render_code_execution_result ⟨"code_execution_tool_result", data⟩ theme =
      ([.mk (.markup (sty theme.tool_result_label "Code Execution Result"))
          [.mk (.rcode (format_json (Json.obj data) 500) "json" false) []]], none) ∧
    (render_content_block ⟨ty, []⟩ theme).2 = none := by
  constructor
  · simp only [render_code_execution_result, hj]
    cases j with
    | obj kvs => exact absurd hno (by simp [Json.isObj])
    | null => rfl
    | bool b => rfl
    | num n => rfl
    | str s => rfl
    | arr l => rfl
  · unfold render_content_block
    repeat' split
    all_goals rfl

/-- Witness for C7 (amended) at a block with a string-valued nested `content`
and at the kind "tool_use" with an empty payload. -/
theorem render_degrades_gracefully_witness :
    jGetD [("content", Json.str "x")] "content" (Json.obj []) = Json.str "x" ∧
    (Json.str "x").isObj = false ∧
    render_code_execution_result ⟨"code_execution_tool_result", [("content", Json.str "x")]⟩
        DARK_THEME =
      ([.mk (.markup (sty DARK_THEME.tool_result_label "Code Execution Result"))
          [.mk (.rcode (format_json (Json.obj [("content", Json.str "x")]) 500) "json" false)
            []]], none) ∧
    (render_content_block ⟨"tool_use", []⟩ DARK_THEME).2 = none :=
  ⟨rfl, rfl,
    (render_degrades_gracefully [("content", Json.str "x")] DARK_THEME (Json.str "x")
      "tool_use" rfl rfl).1,
    (render_degrades_gracefully [("content", Json.str "x")] DARK_THEME (Json.str "x")
      "tool_use" rfl rfl).2⟩

/-- Helper: on a non-empty dict `input` holding a non-empty string `code`, the
server input handler emits the Code sub-node with code-class truncation. -/
theorem server_input_code_case (kvs : JObj) (theme : ColorScheme) (s : String)
    (hc : jLookup kvs "code" = some (Json.str s)) (hs : s ≠ "") :
    server_tool_use_input (Json.obj kvs) theme =
      ([.mk (.markup (sty theme.input_label "Code:"))
          [.mk (.rcode (if s.length > 1000 then s.take 1000 ++ "\n... (truncated)" else s)
            "python" true) []]], none) := by
  have hne : kvs ≠ [] := by
    intro hk
    rw [hk] at hc
    exact Option.noConfusion hc
  simp only [server_tool_use_input, truthy, hc, truthyOpt]
  rw [if_pos (by simp [hne]), if_pos (by simp [bne_iff_ne, hs])]

/-- Helper: on a non-empty dict `input` whose `code` entry is absent or falsy,
the server input handler emits the generic structured-data Input sub-node. -/
theorem server_input_generic_case (kvs : JObj) (theme : ColorScheme) (hne : kvs ≠ [])
    (hc : truthyOpt (jLookup kvs "code") = false) :
    server_tool_use_input (Json.obj kvs) theme =
      ([.mk (.markup (sty theme.input_label "Input:"))
          [.mk (.rcode (format_json (Json.obj kvs) 500) "json" false) []]], none) := by
  simp only [server_tool_use_input, truthy, hc]
  rw [if_pos (by simp [hne]), if_neg (by simp [hc])]

/-- Helper: with a dict-or-absent `caller`, the server renderer emits a single
node whose trailing children and exception outcome come from the input
handler. -/
theorem server_render_structure (data : JObj) (theme : ColorScheme) (ckvs : JObj)
    (hcaller : jGetD data "caller" (Json.obj []) = Json.obj ckvs) :
    ∃ pre,
      render_server_tool_use ⟨"server_tool_use", data⟩ theme =
        ([.mk (.markup (sty theme.tool_use_label "Server Tool Use"))
            (pre ++ (server_tool_use_input (jGetD data "input" (Json.obj [])) theme).1)],
          (server_tool_use_input (jGetD data "input" (Json.obj [])) theme).2) := by
  simp only [render_server_tool_use, hcaller, truthy]
  by_cases hck : ckvs.isEmpty
  · rw [if_neg (by simp [hck])]
    exact ⟨_, rfl⟩
  · rw [if_pos (by simp [hck])]
    exact ⟨_, by rw [List.append_assoc]⟩

/-- C8 counterexample: an `input` whose `code` entry is present and is a
string — the empty string — renders via the generic structured-data Input
sub-node, not the Code sub-node the claim requires for every present string
`code`. -/
theorem server_empty_code_cex :
    jLookup [("code", Json.str "")] "code" = some (Json.str "") ∧
    render_server_tool_use
        ⟨"server_tool_use", [("input", Json.obj [("code", Json.str "")])]⟩ DARK_THEME =
      ([.mk (.markup (sty DARK_THEME.tool_use_label "Server Tool Use"))
          [.mk (.markup (sty DARK_THEME.input_label "Input:"))
            [.mk (.rcode (format_json (Json.obj [("code", Json.str "")]) 500) "json" false)
              []]]], none) ∧
    sty DARK_THEME.input_label "Input:" ≠ sty DARK_THEME.input_label "Code:" :=
  ⟨rfl, rfl, by decide⟩

/-- C8 amended: for every server_tool_use block with dict-or-absent `caller`
and a non-empty dict `input`: if `input.code` is a non-empty string it is
emitted as a distinct Code sub-node with code-class truncation at limit 1000;
if the `code` entry is absent — or present but falsy, such as the empty
string — the whole input is emitted as the generic structured-data
serialization (limit 500) instead. -/
theorem server_input_dispatch (data : JObj) (theme : ColorScheme) (kvs ckvs : JObj)
    (s : String)
    (hcaller : jGetD data "caller" (Json.obj []) = Json.obj ckvs)
    (hin : jGetD data "input" (Json.obj []) = Json.obj kvs) :
    (jLookup kvs "code" = some (Json.str s) → s ≠ "" →
      (Node.mk (.markup (sty theme.input_label "Code:"))
          [.mk (.rcode (if s.length > 1000 then s.take 1000 ++ "\n... (truncated)" else s)
            "python" true) []]) ∈
        (render_server_tool_use ⟨"server_tool_use", data⟩ theme).1.flatMap Node.children ∧
      (render_server_tool_use ⟨"server_tool_use", data⟩ theme).2 = none) ∧
    (kvs ≠ [] → truthyOpt (jLookup kvs "code") = false →
      (Node.mk (.markup (sty theme.input_label "Input:"))
          [.mk (.rcode (format_json (Json.obj kvs) 500) "json" false) []]) ∈
        (render_server_tool_use ⟨"server_tool_use", data⟩ theme).1.flatMap Node.children ∧
      (render_server_tool_use ⟨"server_tool_use", data⟩ theme).2 = none) := by
  obtain ⟨pre, hrender⟩ := server_render_structure data theme ckvs hcaller
  rw [hin] at hrender
  constructor
  · intro hc hs
    rw [hrender, server_input_code_case kvs theme s hc hs]
    simp [Node.children]
  · intro hne hc
    rw [hrender, server_input_generic_case kvs theme hne hc]
    simp [Node.children]

/-- Witness for C8 at an input holding the code string "x = 1" — the Code branch. -/
theorem server_input_dispatch_witness :
    jGetD [("input", Json.obj [("code", Json.str "x = 1")])] "caller" (Json.obj []) =
      Json.obj [] ∧
    jGetD [("input", Json.obj [("code", Json.str "x = 1")])] "input" (Json.obj []) =
      Json.obj [("code", Json.str "x = 1")] ∧
    jLookup [("code", Json.str "x = 1")] "code" = some (Json.str "x = 1") ∧
    (Node.mk (.markup (sty DARK_THEME.input_label "Code:"))
        [.mk (.rcode (if ("x = 1" : String).length > 1000
          then ("x = 1" : String).take 1000 ++ "\n... (truncated)" else "x = 1")
          "python" true) []]) ∈
      (render_server_tool_use
        ⟨"server_tool_use", [("input", Json.obj [("code", Json.str "x = 1")])]⟩
        DARK_THEME).1.flatMap Node.children ∧
    (render_server_tool_use
        ⟨"server_tool_use", [("input", Json.obj [("code", Json.str "x = 1")])]⟩
        DARK_THEME).2 = none :=
  ⟨rfl, rfl, rfl,
    ((server_input_dispatch [("input", Json.obj [("code", Json.str "x = 1")])] DARK_THEME
      [("code", Json.str "x = 1")] [] "x = 1" rfl rfl).1 rfl (by decide)).1,
    ((server_input_dispatch [("input", Json.obj [("code", Json.str "x = 1")])] DARK_THEME
      [("code", Json.str "x = 1")] [] "x = 1" rfl rfl).1 rfl (by decide)).2⟩

/-- A string of `n` copies of the letter a, for exercising truncation. -/
def aN (n : Nat) : String := String.mk (List.replicate n 'a')

/-- Length of `aN`. -/
theorem aN_length (n : Nat) : (aN n).length = n := by simp [aN]

/-- `aN n` is non-empty for positive `n`. -/
theorem aN_ne_empty (n : Nat) (h : 0 < n) : aN n ≠ "" := by
  intro he
  have hl := congrArg String.length he
  rw [aN_length] at hl
  simp at hl
  omega

/-- Flattening `n` copies of a singleton list. -/
theorem flatten_replicate (n : Nat) (c : Char) :
    (List.replicate n [c]).flatten = List.replicate n c := by
  induction n with
  | zero => rfl
  | succ k ih => simp [List.replicate_succ, ih]

/-- `json.dumps` of a pure-letter string is just the quoted string. -/
theorem dumps_aN (n : Nat) : dumps (Json.str (aN n)) = "\"" ++ aN n ++ "\"" := by
  show jsonQuote (aN n) = _
  unfold jsonQuote
  have h1 : (aN n).data = List.replicate n 'a' := rfl
  have h2 : jsonEscapeChar 'a' = String.singleton 'a' := rfl
  have h3 : (String.singleton 'a').data = ['a'] := rfl
  rw [h1, List.map_replicate, h2, String.join_eq, List.map_replicate, h3, flatten_replicate]
  rfl

/-- Length of the serialized pure-letter string. -/
theorem dumps_aN_length (n : Nat) : (dumps (Json.str (aN n))).length = n + 2 := by
  rw [dumps_aN, String.length_append, String.length_append, aN_length,
    show ("\"" : String).length = 1 from rfl]
  omega

/-- C9 counterexample: the truncation markers are not identical across
renderers — the structured-data serializer appends "\n  ... (truncated)" (with
two alignment spaces) while the text renderer appends "\n... (truncated)", so
the policy differs in more than the numeric limit. -/
theorem truncation_marker_cex :
    (dumps (Json.str (aN 600))).length = 602 ∧
    format_json (Json.str (aN 600)) 500 =
      (dumps (Json.str (aN 600))).take 500 ++ "\n  ... (truncated)" ∧
    render_text_content ⟨"text", [("text", Json.str (aN 1100))]⟩ DARK_THEME =
      ([.mk (.markup (sty DARK_THEME.text_label "Text"))
          [.mk (.rtext ((aN 1100).take 1000 ++ "\n... (truncated)") DARK_THEME.text_content)
            []]], none) ∧
    ("\n  ... (truncated)" : String) ≠ "\n... (truncated)" := by
  refine ⟨dumps_aN_length 600, ?_, ?_, by decide⟩
  · simp only [format_json]
    rw [if_pos (by rw [dumps_aN_length]; omega)]
  · have h0 : jGetD [("text", Json.str (aN 1100))] "text" (Json.str "") =
        Json.str (aN 1100) := rfl
    have h1 : truthy (Json.str (aN 1100)) = true := by
      simp only [truthy, bne_iff_ne, ne_eq, decide_eq_true_eq]
      exact aN_ne_empty 1100 (by omega)
    simp only [render_text_content, h0, h1, if_true]
    rw [if_pos (by rw [aN_length]; omega)]

/-- C9 amended: every renderer truncates by the same pure pattern — the text
unchanged when its length is at most the limit, otherwise its first `limit`
characters plus a marker that never counts toward the limit — with limits 500
for structured data, 1000 for text, tool-result output and code snippets, and
2000 for stdout/stderr; the marker is "\n... (truncated)" everywhere except
the structured-data serializer, whose marker carries two extra alignment
spaces: "\n  ... (truncated)". -/
theorem truncation_policy_amended (theme : ColorScheme) (d : Json) (l : Nat) (s t m : String)
    (hs : s ≠ "") (ht : t ≠ "") :
    (format_json d l = truncate (dumps d) l "\n  ... (truncated)") ∧
    (render_text_content ⟨"text", [("text", Json.str s)]⟩ theme =
      ([.mk (.markup (sty theme.text_label "Text"))
          [.mk (.rtext (truncate s 1000 "\n... (truncated)") theme.text_content) []]],
        none)) ∧
    (render_tool_result ⟨"tool_result", [("content", Json.str s)]⟩ theme =
      ([.mk (.markup (sty theme.tool_result_label "Tool Result:" ++ " " ++
          sty theme.success "Success"))
          [.mk (.markup (sty theme.output_label "Output:"))
            [.mk (.rtext (truncate s 1000 "\n... (truncated)") theme.text_content) []]]],
        none)) ∧
    (render_server_tool_use
        ⟨"server_tool_use", [("input", Json.obj [("code", Json.str s)])]⟩ theme =
      ([.mk (.markup (sty theme.tool_use_label "Server Tool Use"))
          [.mk (.markup (sty theme.input_label "Code:"))
            [.mk (.rcode (truncate s 1000 "\n... (truncated)") "python" true) []]]],
        none)) ∧
    (render_code_execution_result ⟨"code_execution_tool_result",
        [("content", Json.obj [("stdout", Json.str s), ("stderr", Json.str t)])]⟩ theme =
      ([.mk (.markup (sty theme.tool_result_label "Code Execution Result:" ++ " " ++
          sty theme.success "Success (exit 0)"))
          [.mk (.markup (sty theme.success "stdout:"))
            [.mk (.rtext (truncate s 2000 "\n... (truncated)") theme.text_content) []],
           .mk (.markup (sty theme.error "stderr:"))
            [.mk (.rtext (truncate t 2000 "\n... (truncated)") theme.text_content) []]]],
        none)) ∧
    (l < s.length → (truncate s l m).length = l + m.length) := by
  have hsb : (s != "") = true := bne_iff_ne.2 hs
  have htb : (t != "") = true := bne_iff_ne.2 ht
  refine ⟨?_, ?_, ?_, ?_, ?_, fun h => truncate_length s l m h⟩
  · simp only [format_json]
    exact truncate_eq_ite (dumps d) l "\n  ... (truncated)"
  · have h0 : jGetD [("text", Json.str s)] "text" (Json.str "") = Json.str s := rfl
    simp only [render_text_content, h0, truthy, hsb, if_true]
    rw [truncate_eq_ite]
  · have h0 : jGetD [("content", Json.str s)] "tool_use_id" (Json.str "") = Json.str "" := rfl
    have h1 : jGetD [("content", Json.str s)] "is_error" (Json.bool false) =
      Json.bool false := rfl
    have h2 : jGetD [("content", Json.str s)] "content" (Json.str "") = Json.str s := rfl
    simp only [render_tool_result, h0, h1, h2, truthy, hsb, if_true, pyStr,
      bne_self_eq_false, Bool.false_eq_true, if_false]
    rw [truncate_eq_ite]
    rfl
  · have h0 : jGetD [("input", Json.obj [("code", Json.str s)])] "caller" (Json.obj []) =
      Json.obj [] := rfl
    have h1 : jGetD [("input", Json.obj [("code", Json.str s)])] "input" (Json.obj []) =
      Json.obj [("code", Json.str s)] := rfl
    have h2 : jGetD [("input", Json.obj [("code", Json.str s)])] "id" (Json.str "") =
      Json.str "" := rfl
    simp only [render_server_tool_use, h0, h1, h2, truthy, bne_self_eq_false,
      Bool.false_eq_true, if_false, List.isEmpty_nil, Bool.not_true,
      server_input_code_case [("code", Json.str s)] theme s rfl hs]
    rw [truncate_eq_ite]
    rfl
  · have h0 : jGetD [("content", Json.obj [("stdout", Json.str s), ("stderr", Json.str t)])]
      "content" (Json.obj []) = Json.obj [("stdout", Json.str s), ("stderr", Json.str t)] := rfl
    have h1 : jGetD [("stdout", Json.str s), ("stderr", Json.str t)] "return_code"
      (Json.num 0) = Json.num 0 := rfl
    have h2 : jGetD [("stdout", Json.str s), ("stderr", Json.str t)] "stdout"
      (Json.str "") = Json.str s := rfl
    have h3 : jGetD [("stdout", Json.str s), ("stderr", Json.str t)] "stderr"
      (Json.str "") = Json.str t := rfl
    simp only [render_code_execution_result, h0, h1, h2, h3, truthy, hsb, htb, if_true,
      code_exec_stream, pyEqZero, pyStr, pyRepr, beq_self_eq_true]
    rw [truncate_eq_ite, truncate_eq_ite]
    rfl

/-- Witness for C9 (amended) at short strings and limit 1. -/
theorem truncation_policy_witness :
    (format_json Json.null 1 = truncate (dumps Json.null) 1 "\n  ... (truncated)") ∧
    (render_text_content ⟨"text", [("text", Json.str "ab")]⟩ DARK_THEME =
      ([.mk (.markup (sty DARK_THEME.text_label "Text"))
          [.mk (.rtext (truncate "ab" 1000 "\n... (truncated)") DARK_THEME.text_content) []]],
        none)) ∧
    (render_server_tool_use
        ⟨"server_tool_use", [("input", Json.obj [("code", Json.str "ab")])]⟩ DARK_THEME =
      ([.mk (.markup (sty DARK_THEME.tool_use_label "Server Tool Use"))
          [.mk (.markup (sty DARK_THEME.input_label "Code:"))
            [.mk (.rcode (truncate "ab" 1000 "\n... (truncated)") "python" true) []]]],
        none)) ∧
    (truncate "ab" 1 "M").length = 1 + ("M" : String).length :=
  ⟨(truncation_policy_amended DARK_THEME Json.null 1 "ab" "c" "M" (by decide) (by decide)).1,
   (truncation_policy_amended DARK_THEME Json.null 1 "ab" "c" "M" (by decide) (by decide)).2.1,
   (truncation_policy_amended DARK_THEME Json.null 1 "ab" "c" "M" (by decide) (by decide)).2.2.2.1,
   (truncation_policy_amended DARK_THEME Json.null 1 "ab" "c" "M" (by decide)
     (by decide)).2.2.2.2.2 (by decide)⟩

end ClaudeVisualizer
